import Mathlib

/-!
# Verification of the authentication / session-lifecycle subsystem

Shallow embedding of the auth core of a collaboration backend:
the per-request session validator (`JwtStrategy.validate`), the login
policy engine (login, lockout, 2FA, OAuth), token rotation and the
revocation registry, plus the `ProjectsService` CRUD error-handling
policy. Times are natural numbers: `Date.getTime()` values are
milliseconds since the epoch, JWT `iat` values are whole seconds.
-/

namespace Auth

/-- JWT payload as decoded by the passport JWT verification step and
handed to `JwtStrategy.validate`. `iat` is in whole seconds. -/
structure JwtPayload where
  sub : String
  email : String
  provider : String
  iat : Nat
deriving Repr, DecidableEq

/-- The user / identity document of the credential store, with the fields
the auth subsystem reads and writes.  `lastPasswordChange` and
`lockoutUntil` are `Date.getTime()` millisecond timestamps when present. -/
structure User where
  id : String
  email : String
  passwordHash : String
  lastPasswordChange : Option Nat
  lockoutUntil : Option Nat
  failedLoginAttempts : Nat
  twoFactorEnabled : Bool
  emailVerified : Bool
  oauth : Option (String × String)
deriving Repr, DecidableEq

/-- An entry of the revocation registry (token blacklist): the revoked
token's identifier plus its natural expiry (ms). -/
structure RevocationEntry where
  tokenId : String
  naturalExpiry : Nat
deriving Repr, DecidableEq

/-- Rejection reasons of the session validator.  `invalidToken` is the
passport-level signature/expiry failure; the remaining four are the
`UnauthorizedException`s thrown by `JwtStrategy.validate`. -/
inductive RejectReason where
  | invalidToken
  | tokenRevoked
  | identityNotFound
  | staleCredentials
  | accountLocked
deriving Repr, DecidableEq

/-- The principal returned by `JwtStrategy.validate` and attached to
`request.user`. -/
structure Principal where
  sub : String
  email : String
  provider : String
  iat : Nat
deriving Repr, DecidableEq

/-- Modelled from the spec: `TokenBlacklistService.isTokenBlacklisted` is
not under `src/` (only its caller is).  The spec describes the Revocation
Registry as a fast-lookup set of revoked token identifiers, so membership
is lookup by token id. -/
def isTokenBlacklisted (bl : List RevocationEntry) (token : String) : Bool :=
  (bl.find? (fun e => e.tokenId = token)).isSome

/-- `UsersService.findById`: document-store lookup by id. -/
def findById (users : List User) (id : String) : Option User :=
  users.find? (fun u => u.id = id)

/-- JS truthiness of the extracted token: defined and non-empty. -/
def tokenTruthy : Option String → Bool
  | none => false
  | some t => t != ""

/-- The stale-credentials test of `JwtStrategy.validate`: when the user
has a `lastPasswordChange`, the token fails when its `iat` (seconds) is
below `Math.floor(lastPasswordChange.getTime() / 1000)`; with no
recorded change the test is skipped. -/
def staleCheckFails (user : User) (iat : Nat) : Bool :=
  match user.lastPasswordChange with
  | some lpc => decide (iat < lpc / 1000)
  | none => false

/-- The lockout test of `JwtStrategy.validate`: fails when `lockoutUntil`
is set and lies strictly in the future (`lockoutUntil > new Date()`). -/
def lockoutCheckFails (user : User) (now : Nat) : Bool :=
  match user.lockoutUntil with
  | some lu => decide (now < lu)
  | none => false

/-- `JwtStrategy.validate` (src/unnamed/part_000 lines 41–79): blacklist
check when a raw token was extracted, then user existence, then the
stale-credentials check against `floor(lastPasswordChange/1000)`, then
the lockout check against the current time, returning the principal
`{sub, email, provider, iat}` of the payload. -/
def JwtStrategy.validate (bl : List RevocationEntry) (users : List User)
    (now : Nat) (token : Option String) (payload : JwtPayload) :
    Except RejectReason Principal :=
  if tokenTruthy token && isTokenBlacklisted bl (token.getD "") then
    .error .tokenRevoked
  else
    match findById users payload.sub with
    | none => .error .identityNotFound
    | some user =>
      if staleCheckFails user payload.iat then
        .error .staleCredentials
      else if lockoutCheckFails user now then
        .error .accountLocked
      else
        .ok ⟨payload.sub, payload.email, payload.provider, payload.iat⟩

/-- The full per-request gate: passport first verifies signature and
expiry of the raw token (yielding its payload), then runs
`JwtStrategy.validate`.  The cryptographic verification primitive is the
abstract parameter `verifyJwt`. -/
def sessionValidate (verifyJwt : String → Option JwtPayload)
    (bl : List RevocationEntry) (users : List User) (now : Nat)
    (token : String) : Except RejectReason Principal :=
  match verifyJwt token with
  | none => .error .invalidToken
  | some payload => JwtStrategy.validate bl users now (some token) payload

end Auth

namespace Auth

/-- The injected configuration of the auth core: token TTLs and the
lockout threshold/window (ms). -/
structure AuthConfig where
  accessTtl : Nat
  refreshTtl : Nat
  challengeTtl : Nat
  lockoutThreshold : Nat
  lockoutWindow : Nat
deriving Repr, DecidableEq

/-- A refresh-token record tracked for rotation and revocation. -/
structure RefreshRecord where
  token : String
  familyId : String
  rotated : Bool
  revoked : Bool
  expiry : Nat
deriving Repr, DecidableEq

/-- A minted token (access or refresh) remembered with the family of the
original login it descends from. -/
structure FamilyToken where
  tokenId : String
  familyId : String
  naturalExpiry : Nat
deriving Repr, DecidableEq

/-- The mutable state of the auth subsystem: credential store, revocation
registry, refresh-token rotation records and the family ledger. -/
structure AuthState where
  users : List User
  registry : List RevocationEntry
  refreshTokens : List RefreshRecord
  familyTokens : List FamilyToken
deriving Repr, DecidableEq

/-- `UsersService.findByEmail`: document-store lookup by email. -/
def findByEmail (users : List User) (email : String) : Option User :=
  users.find? (fun u => u.email = email)

/-- Document-store save of an identity: replace the document with the
same id. -/
def saveUser (users : List User) (u : User) : List User :=
  users.map (fun v => if v.id = u.id then u else v)

/-- Modelled from the spec: the Revocation Registry's
`revoke(tokenId, naturalExpiry)` (`TokenBlacklistService` is not under
`src/`).  Revoking an already-present identifier is a no-op, so repeated
revocation is not an error. -/
def revokeToken (bl : List RevocationEntry) (tokenId : String)
    (naturalExpiry : Nat) : List RevocationEntry :=
  if (bl.find? (fun e => e.tokenId = tokenId)).isSome then bl
  else bl ++ [⟨tokenId, naturalExpiry⟩]

/-- Modelled from the spec: `revokeFamily(familyId)` — every token minted
in the family is revoked with its natural expiry, and the family's
refresh records are marked revoked. -/
def revokeFamily (st : AuthState) (familyId : String) : AuthState :=
  { st with
      registry := st.familyTokens.foldl
        (fun bl ft => if ft.familyId = familyId then
          revokeToken bl ft.tokenId ft.naturalExpiry else bl)
        st.registry,
      refreshTokens := st.refreshTokens.map
        (fun r => if r.familyId = familyId then { r with revoked := true }
          else r) }

/-- Token Issuer bookkeeping for a freshly minted pair: the refresh token
becomes a rotation record of the family, and both tokens enter the
family ledger with their natural expiries. -/
def mintPair (cfg : AuthConfig) (st : AuthState) (now : Nat)
    (familyId accessToken refreshToken : String) : AuthState :=
  { st with
      refreshTokens := st.refreshTokens
        ++ [⟨refreshToken, familyId, false, false, now + cfg.refreshTtl⟩],
      familyTokens := st.familyTokens
        ++ [⟨accessToken, familyId, now + cfg.accessTtl⟩,
            ⟨refreshToken, familyId, now + cfg.refreshTtl⟩] }

/-- Outcome of a login attempt. -/
inductive LoginResult where
  | invalidCredentials
  | accountLocked
  | requires2FA (tempToken : String)
  | tokenPair (accessToken refreshToken : String)
deriving Repr, DecidableEq

/-- Modelled from the spec: `AuthService.login` is not under `src/` (only
its controller is).  Fails with `InvalidCredentials` on unknown identity
or hash mismatch, incrementing the counter on mismatch and setting
`lockoutUntil := now + window` once the counter reaches the threshold;
fails fast with `AccountLocked` while `lockoutUntil` is in the future,
without consuming another increment; an attempt after the window elapses
resets the counter first.  On match with 2FA enabled it returns only a
challenge token and mints nothing; otherwise it resets the counter and
issues a token pair.  The hash primitive is the parameter `verify`. -/
def login (verify : String → String → Bool) (cfg : AuthConfig)
    (st : AuthState) (now : Nat)
    (email password tempToken familyId newAccess newRefresh : String) :
    LoginResult × AuthState :=
  match findByEmail st.users email with
  | none => (.invalidCredentials, st)
  | some user0 =>
    if (match user0.lockoutUntil with
        | some lu => decide (now < lu)
        | none => false) then
      (.accountLocked, st)
    else
      let user := if user0.lockoutUntil.isSome then
          { user0 with failedLoginAttempts := 0, lockoutUntil := none }
        else user0
      if verify password user.passwordHash then
        if user.twoFactorEnabled then
          (.requires2FA tempToken, { st with users := saveUser st.users user })
        else
          let user1 := { user with failedLoginAttempts := 0 }
          let st1 := { st with users := saveUser st.users user1 }
          (.tokenPair newAccess newRefresh,
            mintPair cfg st1 now familyId newAccess newRefresh)
      else
        let n := user.failedLoginAttempts + 1
        let user1 := if cfg.lockoutThreshold ≤ n then
            { user with
                failedLoginAttempts := n,
                lockoutUntil := some (now + cfg.lockoutWindow) }
          else { user with failedLoginAttempts := n }
        (.invalidCredentials, { st with users := saveUser st.users user1 })

/-- Modelled from the spec: `AuthService.logout` is not under `src/`.
Adds both tokens' identifiers to the Revocation Registry with their
natural expiries; repeated logout is a no-op, not an error. -/
def logout (st : AuthState) (accessToken refreshToken : String)
    (accessExpiry refreshExpiry : Nat) : AuthState :=
  let bl1 := revokeToken st.registry accessToken accessExpiry
  { st with registry := revokeToken bl1 refreshToken refreshExpiry }

/-- Outcome of `refreshAccessToken`. -/
inductive RefreshResult where
  | invalidOrExpiredToken
  | tokenReplayDetected
  | rotated (accessToken refreshToken : String)
deriving Repr, DecidableEq

/-- Whether a refresh call succeeded. -/
def RefreshResult.isSuccess : RefreshResult → Bool
  | .rotated _ _ => true
  | _ => false

/-- Modelled from the spec: `AuthService.refreshAccessToken` is not under
`src/` (only its controller is).  Fails with `InvalidOrExpiredToken` when
the refresh token is unknown, revoked or expired; reuse of an
already-rotated token is a replay, failing with `TokenReplayDetected`
and revoking the whole family; otherwise the token is marked rotated and
a fresh pair is minted in the same family. -/
def refreshAccessToken (cfg : AuthConfig) (st : AuthState) (now : Nat)
    (refreshToken newAccess newRefresh : String) :
    RefreshResult × AuthState :=
  match st.refreshTokens.find? (fun r => r.token = refreshToken) with
  | none => (.invalidOrExpiredToken, st)
  | some record =>
    if record.revoked then (.invalidOrExpiredToken, st)
    else if record.expiry ≤ now then (.invalidOrExpiredToken, st)
    else if record.rotated then
      (.tokenReplayDetected, revokeFamily st record.familyId)
    else
      let markRotated := fun (r : RefreshRecord) =>
        if r.token = refreshToken then { r with rotated := true } else r
      let st1 := { st with refreshTokens := st.refreshTokens.map markRotated }
      (.rotated newAccess newRefresh,
        mintPair cfg st1 now record.familyId newAccess newRefresh)

/-- Whether the rotation record for a token in a record list, if any, is
already rotated (vacuously true when the token is unknown). -/
def rotatedInList (l : List RefreshRecord) (refreshToken : String) : Bool :=
  match l.find? (fun r => r.token = refreshToken) with
  | some record => record.rotated
  | none => true

/-- Whether the state's rotation record for a token, if any, is already
rotated: once this holds, a refresh call with the token can never
succeed. -/
def rotatedOrGone (st : AuthState) (refreshToken : String) : Bool :=
  rotatedInList st.refreshTokens refreshToken

/-- The validated OAuth profile handed over by the provider. -/
structure OAuthProfile where
  provider : String
  subject : String
  email : String
  name : String
deriving Repr, DecidableEq

/-- Modelled from the spec: `AuthService.validateOAuthLogin` is not under
`src/` (only its callers are).  Looks up the identity keyed by
`(provider, subject)`; failing that, links to an existing identity with
the same verified email; failing that, creates a fresh identity.  It
always succeeds and issues a token pair. -/
def validateOAuthLogin (cfg : AuthConfig) (st : AuthState) (now : Nat)
    (profile : OAuthProfile)
    (newUserId familyId newAccess newRefresh : String) :
    (String × String) × AuthState :=
  match st.users.find?
      (fun u => u.oauth = some (profile.provider, profile.subject)) with
  | some _ =>
    ((newAccess, newRefresh), mintPair cfg st now familyId newAccess newRefresh)
  | none =>
    match st.users.find?
        (fun u => u.email = profile.email && u.emailVerified) with
    | some u =>
      let linked := { u with oauth := some (profile.provider, profile.subject) }
      let st1 := { st with users := saveUser st.users linked }
      ((newAccess, newRefresh),
        mintPair cfg st1 now familyId newAccess newRefresh)
    | none =>
      let created : User :=
        { id := newUserId, email := profile.email, passwordHash := "",
          lastPasswordChange := none, lockoutUntil := none,
          failedLoginAttempts := 0, twoFactorEnabled := false,
          emailVerified := true,
          oauth := some (profile.provider, profile.subject) }
      let st1 := { st with users := st.users ++ [created] }
      ((newAccess, newRefresh),
        mintPair cfg st1 now familyId newAccess newRefresh)

/-- The completed Google OAuth flow as wired in the source:
`GoogleStrategy.validate` calls `validateOAuthLogin(profile)` and passes
the raw profile through `done(null, profile)` to `req.user`, after which
`AuthController.googleAuthRedirect` calls `validateOAuthLogin` again on
the same profile. -/
def googleLoginFlow (cfg : AuthConfig) (st : AuthState) (now : Nat)
    (profile : OAuthProfile)
    (id1 fam1 acc1 ref1 id2 fam2 acc2 ref2 : String) :
    (String × String) × AuthState :=
  validateOAuthLogin cfg
    (validateOAuthLogin cfg st now profile id1 fam1 acc1 ref1).2
    now profile id2 fam2 acc2 ref2

/-- Consecutive login attempts with one set of credentials at the given
sequence of times. -/
def loginRun (verify : String → String → Bool) (cfg : AuthConfig)
    (email password tempToken familyId newAccess newRefresh : String) :
    AuthState → List Nat → AuthState
  | st, [] => st
  | st, t :: ts =>
    loginRun verify cfg email password tempToken familyId newAccess newRefresh
      (login verify cfg st t email password tempToken familyId newAccess
        newRefresh).2 ts

/-- The operations that mutate the auth state. -/
inductive AuthOp where
  | loginOp (now : Nat)
      (email password tempToken familyId newAccess newRefresh : String)
  | refreshOp (now : Nat) (refreshToken newAccess newRefresh : String)
  | logoutOp (accessToken refreshToken : String)
      (accessExpiry refreshExpiry : Nat)
deriving Repr, DecidableEq

/-- Apply one operation to the state. -/
def applyOp (verify : String → String → Bool) (cfg : AuthConfig)
    (st : AuthState) : AuthOp → AuthState
  | .loginOp now e p tt fam acc ref =>
    (login verify cfg st now e p tt fam acc ref).2
  | .refreshOp now t acc ref => (refreshAccessToken cfg st now t acc ref).2
  | .logoutOp acc ref ae re => logout st acc ref ae re

/-- Run a sequence of operations. -/
def runOps (verify : String → String → Bool) (cfg : AuthConfig) :
    AuthState → List AuthOp → AuthState
  | st, [] => st
  | st, op :: ops => runOps verify cfg (applyOp verify cfg st op) ops

/-- Whether an operation mints a refresh token with the given identifier
(token identifiers are uuid-fresh in the real system). -/
def mintsRefreshToken (refreshToken : String) : AuthOp → Bool
  | .loginOp _ _ _ _ _ _ newRefresh => newRefresh = refreshToken
  | .refreshOp _ _ _ newRefresh => newRefresh = refreshToken
  | .logoutOp _ _ _ _ => false

end Auth
namespace Projects

/-- User record as the projects layer reads it (`UsersService.findByEmail`). -/
structure PUser where
  id : String
  email : String
deriving Repr, DecidableEq

/-- Project document (`project.schema`): fields touched by
`ProjectsService`. -/
structure Project where
  id : String
  name : String
  description : String
  status : String
  createdBy : String
  members : List String
  progress : Nat
  startDate : Option Nat
  endDate : Option Nat
  teamId : Option String
deriving Repr, DecidableEq

/-- Team document as provisioned from a project. -/
structure Team where
  id : String
  projectId : String
  members : List String
deriving Repr, DecidableEq

structure CreateProjectDto where
  name : String
  description : String
  status : Option String
  members : Option (List String)
  progress : Option Nat
  startDate : Option Nat
  endDate : Option Nat
deriving Repr, DecidableEq

structure UpdateProjectDto where
  name : Option String
  description : Option String
  status : Option String
  progress : Option Nat
  members : Option (List String)
  startDate : Option Nat
  endDate : Option Nat
deriving Repr, DecidableEq

/-- Typed rejections thrown by `ProjectsService` (`NotFoundException`,
`ForbiddenException`). -/
inductive ProjError where
  | userNotFound
  | projectNotFound
  | forbidden
deriving Repr, DecidableEq

/-- The document store plus the behaviour of the `TeamsService`
collaborator: `teamCreateFails` / `teamUpdateFails` model
`createFromProject` / `updateProjectTeamMembers` throwing. -/
structure World where
  users : List PUser
  projects : List Project
  teams : List Team
  teamCreateFails : Bool
  teamUpdateFails : Bool
  nextTeamId : String
deriving Repr, DecidableEq

/-- Document-store upsert of a project by id. -/
def saveProject (projects : List Project) (p : Project) : List Project :=
  if projects.any (fun q => q.id = p.id) then
    projects.map (fun q => if q.id = p.id then p else q)
  else projects ++ [p]

/-- `TeamsService.updateProjectTeamMembers`: replace the member list of
the team attached to the project. -/
def syncTeamMembers (teams : List Team) (projectId : String)
    (members : List String) : List Team :=
  teams.map (fun t => if t.projectId = projectId then
    { t with members := members } else t)

/-- `ProjectsService.create` (projects.service.ts lines 18–59): resolve
the creator, save the project without a team, then try to auto-provision
a team; a `createFromProject` failure is caught and logged, and the
saved project is returned regardless. -/
def ProjectsService.create (w : World) (dto : CreateProjectDto)
    (userEmail : String) (newId : String) :
    Except ProjError Project × World :=
  match w.users.find? (fun u => u.email = userEmail) with
  | none => (.error .userNotFound, w)
  | some user =>
    let project : Project :=
      { id := newId, name := dto.name, description := dto.description,
        status := dto.status.getD "active", createdBy := user.id,
        members := dto.members.getD [], progress := dto.progress.getD 0,
        startDate := dto.startDate, endDate := dto.endDate, teamId := none }
    let projects1 := saveProject w.projects project
    if w.teamCreateFails then
      (.ok project, { w with projects := projects1 })
    else
      let team : Team :=
        { id := w.nextTeamId, projectId := newId,
          members := user.id :: dto.members.getD [] }
      let saved2 := { project with teamId := some team.id }
      (.ok saved2,
        { w with
            projects := saveProject projects1 saved2,
            teams := w.teams ++ [team] })

/-- `ProjectsService.update` (lines 109–147): creator-only update; when
the member list changes, team synchronization is attempted and a
failure of `updateProjectTeamMembers` is caught and logged, the update
succeeding regardless. -/
def ProjectsService.update (w : World) (id : String)
    (dto : UpdateProjectDto) (userEmail : String) :
    Except ProjError Project × World :=
  match w.users.find? (fun u => u.email = userEmail) with
  | none => (.error .userNotFound, w)
  | some user =>
    match w.projects.find? (fun p => p.id = id) with
    | none => (.error .projectNotFound, w)
    | some project =>
      if project.createdBy ≠ user.id then (.error .forbidden, w)
      else
        let project1 := match dto.members with
          | some ms => { project with members := ms }
          | none => project
        let teams1 := match dto.members with
          | some ms =>
            if w.teamUpdateFails then w.teams
            else syncTeamMembers w.teams id ms
          | none => w.teams
        let project2 := { project1 with
          startDate := match dto.startDate with
            | some s => some s
            | none => project1.startDate,
          endDate := match dto.endDate with
            | some e => some e
            | none => project1.endDate,
          name := dto.name.getD project.name,
          description := dto.description.getD project.description,
          status := dto.status.getD project.status,
          progress := dto.progress.getD project.progress }
        (.ok project2,
          { w with
              projects := saveProject w.projects project2,
              teams := teams1 })

/-- `ProjectsService.addMember` (lines 170–203): creator-only; a new
member is appended and team synchronization attempted, its failure
caught and logged. -/
def ProjectsService.addMember (w : World) (id userId userEmail : String) :
    Except ProjError Project × World :=
  match w.users.find? (fun u => u.email = userEmail) with
  | none => (.error .userNotFound, w)
  | some user =>
    match w.projects.find? (fun p => p.id = id) with
    | none => (.error .projectNotFound, w)
    | some project =>
      if project.createdBy ≠ user.id then (.error .forbidden, w)
      else if project.members.any (fun m => m = userId) then
        (.ok project, w)
      else
        let project1 := { project with members := project.members ++ [userId] }
        (.ok project1,
          { w with
              projects := saveProject w.projects project1,
              teams := if w.teamUpdateFails then w.teams
                else syncTeamMembers w.teams id project1.members })

/-- `ProjectsService.removeMember` (lines 205–235): creator-only; the
member is filtered out and team synchronization attempted, its failure
caught and logged. -/
def ProjectsService.removeMember (w : World) (id userId userEmail : String) :
    Except ProjError Project × World :=
  match w.users.find? (fun u => u.email = userEmail) with
  | none => (.error .userNotFound, w)
  | some user =>
    match w.projects.find? (fun p => p.id = id) with
    | none => (.error .projectNotFound, w)
    | some project =>
      if project.createdBy ≠ user.id then (.error .forbidden, w)
      else
        let project1 := { project with
          members := project.members.filter (fun m => m ≠ userId) }
        (.ok project1,
          { w with
              projects := saveProject w.projects project1,
              teams := if w.teamUpdateFails then w.teams
                else syncTeamMembers w.teams id project1.members })
end Projects

namespace Auth

/-- C1: a token that appears in the Revocation Registry never yields a
principal from the session gate, even when its signature is valid and it
is unexpired (i.e. `verifyJwt` accepts it); it is rejected with
`TokenRevoked`. -/
theorem revoked_token_never_validates
    (verifyJwt : String → Option JwtPayload) (bl : List RevocationEntry)
    (users : List User) (now : Nat) (token : String) (payload : JwtPayload)
    (hsig : verifyJwt token = some payload)
    (hrev : isTokenBlacklisted bl token = true)
    (hne : token ≠ "") :
    sessionValidate verifyJwt bl users now token = .error .tokenRevoked := by
  simp [sessionValidate, hsig, JwtStrategy.validate, tokenTruthy, hne, hrev]

/-- Witness for C1 at a concrete revoked token. -/
theorem revoked_token_never_validates_witness :
    sessionValidate (fun _ => some ⟨"u1", "a@x.com", "local", 10⟩)
        [⟨"tok", 99⟩] [] 0 "tok" = .error .tokenRevoked :=
  revoked_token_never_validates _ _ _ _ _ _ rfl (by decide) (by decide)

/-- C2: the session gate returns the principal `{sub, email, provider,
iat}` of the payload exactly when every check passes — signature/expiry
(`verifyJwt`), revocation, identity existence, stale-credentials,
lockout — and each failing check yields its specific reason in the
code's evaluation order (revocation before existence before staleness
before lockout).  A token the signature step rejects fails with
`invalidToken`.  The model is a pure function, so success has no side
effects. -/
theorem validate_contract
    (verifyJwt : String → Option JwtPayload) (bl : List RevocationEntry)
    (users : List User) (now : Nat) (token : String) (payload : JwtPayload)
    (hsig : verifyJwt token = some payload) :
    (sessionValidate verifyJwt bl users now token
        = .ok ⟨payload.sub, payload.email, payload.provider, payload.iat⟩
      ↔ (token ≠ "" → isTokenBlacklisted bl token = false)
        ∧ ∃ user, findById users payload.sub = some user
          ∧ staleCheckFails user payload.iat = false
          ∧ lockoutCheckFails user now = false)
    ∧ (token ≠ "" → isTokenBlacklisted bl token = true →
        sessionValidate verifyJwt bl users now token = .error .tokenRevoked)
    ∧ ((token ≠ "" → isTokenBlacklisted bl token = false) →
        findById users payload.sub = none →
        sessionValidate verifyJwt bl users now token = .error .identityNotFound)
    ∧ (∀ user, (token ≠ "" → isTokenBlacklisted bl token = false) →
        findById users payload.sub = some user →
        staleCheckFails user payload.iat = true →
        sessionValidate verifyJwt bl users now token = .error .staleCredentials)
    ∧ (∀ user, (token ≠ "" → isTokenBlacklisted bl token = false) →
        findById users payload.sub = some user →
        staleCheckFails user payload.iat = false →
        lockoutCheckFails user now = true →
        sessionValidate verifyJwt bl users now token = .error .accountLocked)
    ∧ (∀ t, verifyJwt t = none →
        sessionValidate verifyJwt bl users now t = .error .invalidToken) := by
  have hskip : sessionValidate verifyJwt bl users now token
      = JwtStrategy.validate bl users now (some token) payload := by
    simp [sessionValidate, hsig]
  by_cases hb : (tokenTruthy (some token) && isTokenBlacklisted bl token) = true
  · have hbrw : JwtStrategy.validate bl users now (some token) payload
        = .error .tokenRevoked := by
      simp only [JwtStrategy.validate, Option.getD_some, hb, if_true]
    obtain ⟨ht, hrev⟩ := Bool.and_eq_true_iff.mp hb
    have hne : token ≠ "" := by simpa [tokenTruthy] using ht
    refine ⟨?_, ?_, ?_, ?_, ?_, ?_⟩
    · rw [hskip, hbrw]
      constructor
      · intro h; cases h
      · rintro ⟨hnb, -⟩
        rw [hnb hne] at hrev; cases hrev
    · intro _ _; rw [hskip, hbrw]
    · intro hnb _; rw [hnb hne] at hrev; cases hrev
    · intro _ hnb _ _; rw [hnb hne] at hrev; cases hrev
    · intro _ hnb _ _ _; rw [hnb hne] at hrev; cases hrev
    · intro t ht2; simp [sessionValidate, ht2]
  · have hval : JwtStrategy.validate bl users now (some token) payload
        = (match findById users payload.sub with
          | none => .error .identityNotFound
          | some user =>
            if staleCheckFails user payload.iat then .error .staleCredentials
            else if lockoutCheckFails user now then .error .accountLocked
            else .ok ⟨payload.sub, payload.email, payload.provider, payload.iat⟩) := by
      simp only [JwtStrategy.validate, Option.getD_some, hb, if_false]
      simp
    refine ⟨?_, ?_, ?_, ?_, ?_, ?_⟩
    · rw [hskip, hval]
      constructor
      · intro h
        refine ⟨?_, ?_⟩
        · intro hne
          by_contra hr
          exact hb (by simp [tokenTruthy, hne,
            Bool.of_not_eq_false fun hc => hr hc])
        · cases hfind : findById users payload.sub with
          | none => simp only [hfind] at h; cases h
          | some user =>
            simp only [hfind] at h
            by_cases hs : staleCheckFails user payload.iat = true
            · simp only [hs, if_true] at h; cases h
            · simp only [hs, if_false] at h
              by_cases hl : lockoutCheckFails user now = true
              · simp only [hl, if_true] at h; cases h
              · exact ⟨user, rfl, Bool.not_eq_true _ ▸ hs,
                  Bool.not_eq_true _ ▸ hl⟩
      · rintro ⟨-, user, hfind, hs, hl⟩
        simp only [hfind, hs, hl]
        simp
    · intro hne hrev
      exact absurd (by simp [tokenTruthy, hne, hrev]) hb
    · intro _ hfind
      rw [hskip, hval]; simp only [hfind]
    · intro user _ hfind hs
      rw [hskip, hval]; simp [hfind, hs]
    · intro user _ hfind hs hl
      rw [hskip, hval]; simp [hfind, hs, hl]
    · intro t ht2; simp [sessionValidate, ht2]

/-- Witness for C2: a concrete token passing all five checks yields the
payload's principal. -/
theorem validate_contract_witness :
    sessionValidate
        (fun t => if t = "tok" then some ⟨"u1", "a@x.com", "local", 100⟩ else none)
        [] [⟨"u1", "a@x.com", "h", some 50000, none, 0, false, true, none⟩] 0 "tok"
      = .ok ⟨"u1", "a@x.com", "local", 100⟩ :=
  (validate_contract
      (fun t => if t = "tok" then some ⟨"u1", "a@x.com", "local", 100⟩ else none)
      [] [⟨"u1", "a@x.com", "h", some 50000, none, 0, false, true, none⟩] 0 "tok"
      ⟨"u1", "a@x.com", "local", 100⟩ (by decide)).1.mpr
    ⟨fun _ => by decide,
      ⟨"u1", "a@x.com", "h", some 50000, none, 0, false, true, none⟩,
      by decide, by decide, by decide⟩

/-- C9: the stale-credentials check compares the token's `iat` against
`lastPasswordChange` truncated down to whole seconds, and is skipped
when `lastPasswordChange` is unset: an identity without a recorded
change never produces a `StaleCredentials` rejection, and a token whose
`iat` equals the whole-second floor of the change time passes the
check. -/
theorem stale_check_truncation_and_skip
    (bl : List RevocationEntry) (users : List User) (now : Nat)
    (token : Option String) (payload : JwtPayload) (user : User)
    (hfind : findById users payload.sub = some user) :
    (user.lastPasswordChange = none →
      JwtStrategy.validate bl users now token payload
        ≠ .error .staleCredentials)
    ∧ (∀ c, user.lastPasswordChange = some c → payload.iat = c / 1000 →
      JwtStrategy.validate bl users now token payload
        ≠ .error .staleCredentials) := by
  have hstale : ∀ hs : staleCheckFails user payload.iat = false,
      JwtStrategy.validate bl users now token payload
        ≠ .error .staleCredentials := by
    intro hs
    unfold JwtStrategy.validate
    by_cases hb : (tokenTruthy token && isTokenBlacklisted bl (token.getD "")) = true
    · simp [hb]
    · simp only [hb, if_false]
      simp only [hfind, hs]
      by_cases hl : lockoutCheckFails user now = true <;> simp [hl]
  constructor
  · intro hlpc
    exact hstale (by simp [staleCheckFails, hlpc])
  · intro c hlpc hiat
    exact hstale (by simp [staleCheckFails, hlpc, hiat])

/-- Witness for C9 at a concrete identity with no recorded password
change. -/
theorem stale_check_truncation_and_skip_witness :
    (⟨"u1", "a@x.com", "h", none, none, 0, false, true, none⟩ : User).lastPasswordChange = none ∧
    JwtStrategy.validate []
        [⟨"u1", "a@x.com", "h", none, none, 0, false, true, none⟩] 0
        (some "tok") ⟨"u1", "a@x.com", "local", 0⟩
      ≠ .error .staleCredentials :=
  ⟨rfl,
    (stale_check_truncation_and_skip [] _ 0 (some "tok")
      ⟨"u1", "a@x.com", "local", 0⟩
      ⟨"u1", "a@x.com", "h", none, none, 0, false, true, none⟩
      (by decide)).1 rfl⟩

/-- Counterexample to C3 as stated: the identity's password changed at
millisecond 1500; a token issued at millisecond 1200 — strictly before
the change — carries `iat = 1200 / 1000 = 1`, which is not below
`floor(1500 / 1000) = 1`, so `validate` returns the principal instead of
failing with `StaleCredentials`. -/
theorem token_issued_before_change_cex :
    1200 < 1500
    ∧ JwtStrategy.validate []
        [⟨"u1", "a@x.com", "h", some 1500, none, 0, false, true, none⟩] 0
        (some "tok") ⟨"u1", "a@x.com", "local", 1200 / 1000⟩
      = .ok ⟨"u1", "a@x.com", "local", 1⟩ :=
  ⟨by decide, by rfl⟩

/-- C3 amended: a token issued at or after the password change always
validates (the other checks passing); a token issued before the change
is rejected with `StaleCredentials` exactly when its issue time lies in
an earlier whole second than the change time; a token issued strictly
before the change but within the change's whole second validates
successfully. -/
theorem password_change_invalidation
    (bl : List RevocationEntry) (users : List User)
    (now issueMs changeMs : Nat) (token : Option String)
    (payload : JwtPayload) (user : User)
    (hfind : findById users payload.sub = some user)
    (hlpc : user.lastPasswordChange = some changeMs)
    (hiat : payload.iat = issueMs / 1000)
    (hbl : (tokenTruthy token && isTokenBlacklisted bl (token.getD "")) = false)
    (hlock : lockoutCheckFails user now = false) :
    (issueMs / 1000 < changeMs / 1000 →
      JwtStrategy.validate bl users now token payload
        = .error .staleCredentials)
    ∧ (changeMs ≤ issueMs →
      JwtStrategy.validate bl users now token payload
        = .ok ⟨payload.sub, payload.email, payload.provider, payload.iat⟩)
    ∧ (issueMs < changeMs → issueMs / 1000 = changeMs / 1000 →
      JwtStrategy.validate bl users now token payload
        = .ok ⟨payload.sub, payload.email, payload.provider, payload.iat⟩) := by
  have hpass : ∀ hs : staleCheckFails user payload.iat = false,
      JwtStrategy.validate bl users now token payload
        = .ok ⟨payload.sub, payload.email, payload.provider, payload.iat⟩ := by
    intro hs
    unfold JwtStrategy.validate
    simp [hbl, hfind, hs, hlock]
  refine ⟨?_, ?_, ?_⟩
  · intro hlt
    have hs : staleCheckFails user payload.iat = true := by
      simp [staleCheckFails, hlpc, hiat, hlt]
    unfold JwtStrategy.validate
    simp [hbl, hfind, hs]
  · intro hle
    refine hpass ?_
    simp [staleCheckFails, hlpc, hiat]
    exact Nat.div_le_div_right hle
  · intro _ heq
    refine hpass ?_
    simp [staleCheckFails, hlpc, hiat, heq]

/-- Witness for the amended C3: change at ms 1500, a token issued at ms
2100 validates, one issued at ms 900 fails stale, one issued at ms 1200
(same second as the change) validates. -/
theorem password_change_invalidation_witness :
    (JwtStrategy.validate []
        [⟨"u1", "a@x.com", "h", some 1500, none, 0, false, true, none⟩] 0
        (some "tok") ⟨"u1", "a@x.com", "local", 900 / 1000⟩
      = .error .staleCredentials)
    ∧ (JwtStrategy.validate []
        [⟨"u1", "a@x.com", "h", some 1500, none, 0, false, true, none⟩] 0
        (some "tok") ⟨"u1", "a@x.com", "local", 2100 / 1000⟩
      = .ok ⟨"u1", "a@x.com", "local", 2100 / 1000⟩) :=
  ⟨(password_change_invalidation [] _ 0 900 1500 (some "tok")
      ⟨"u1", "a@x.com", "local", 900 / 1000⟩
      ⟨"u1", "a@x.com", "h", some 1500, none, 0, false, true, none⟩
      (by decide) rfl rfl (by decide) (by decide)).1 (by decide),
    (password_change_invalidation [] _ 0 2100 1500 (some "tok")
      ⟨"u1", "a@x.com", "local", 2100 / 1000⟩
      ⟨"u1", "a@x.com", "h", some 1500, none, 0, false, true, none⟩
      (by decide) rfl rfl (by decide) (by decide)).2.1 (by decide)⟩

theorem isTokenBlacklisted_revokeToken_self (bl : List RevocationEntry)
    (t : String) (e : Nat) :
    isTokenBlacklisted (revokeToken bl t e) t = true := by
  unfold revokeToken
  by_cases hp : (bl.find? (fun x => x.tokenId = t)).isSome = true
  · rw [if_pos hp]; exact hp
  · rw [if_neg hp]
    have hnone : bl.find? (fun x => x.tokenId = t) = none := by
      cases hf : bl.find? (fun x => x.tokenId = t) with
      | some v => exact absurd (by rw [hf]; rfl) hp
      | none => rfl
    unfold isTokenBlacklisted
    rw [List.find?_append, hnone]
    simp

theorem isTokenBlacklisted_revokeToken_mono (bl : List RevocationEntry)
    (t x : String) (e : Nat) (h : isTokenBlacklisted bl x = true) :
    isTokenBlacklisted (revokeToken bl t e) x = true := by
  unfold revokeToken
  by_cases hp : (bl.find? (fun y => y.tokenId = t)).isSome = true
  · rw [if_pos hp]; exact h
  · rw [if_neg hp]
    unfold isTokenBlacklisted at h ⊢
    rw [List.find?_append]
    cases hf : bl.find? (fun y => y.tokenId = x) with
    | some v => rfl
    | none => rw [hf] at h; simp at h

theorem isTokenBlacklisted_revokeToken_other (bl : List RevocationEntry)
    (t x : String) (e : Nat) (hx : isTokenBlacklisted bl x = false)
    (hne : x ≠ t) :
    isTokenBlacklisted (revokeToken bl t e) x = false := by
  unfold revokeToken
  by_cases hp : (bl.find? (fun y => y.tokenId = t)).isSome = true
  · rw [if_pos hp]; exact hx
  · rw [if_neg hp]
    unfold isTokenBlacklisted at hx ⊢
    rw [List.find?_append]
    cases hf : bl.find? (fun y => y.tokenId = x) with
    | some v => rw [hf] at hx; simp at hx
    | none => simp [Ne.symm hne]

theorem mem_revokeToken_of_mem (bl : List RevocationEntry)
    (t : String) (e : Nat) (x : RevocationEntry) (h : x ∈ bl) :
    x ∈ revokeToken bl t e := by
  unfold revokeToken
  by_cases hp : (bl.find? (fun y => y.tokenId = t)).isSome <;>
    simp [hp, h]

theorem mem_revokeToken_self (bl : List RevocationEntry)
    (t : String) (e : Nat) (h : isTokenBlacklisted bl t = false) :
    (⟨t, e⟩ : RevocationEntry) ∈ revokeToken bl t e := by
  unfold isTokenBlacklisted at h
  unfold revokeToken
  simp [h]

theorem revokeToken_of_present (bl : List RevocationEntry)
    (t : String) (e : Nat) (h : isTokenBlacklisted bl t = true) :
    revokeToken bl t e = bl := by
  unfold isTokenBlacklisted at h
  unfold revokeToken
  simp [h]

/-- C6: after a `logout` call, every subsequent `validate` on the same
access token fails with `TokenRevoked`; logout added both tokens'
identifiers to the Revocation Registry with their natural expiries; and
repeating the logout on the same tokens changes nothing, so it is not an
error. -/
theorem logout_revokes_and_is_idempotent
    (st : AuthState) (accessToken refreshToken : String)
    (accessExpiry refreshExpiry : Nat)
    (hne : accessToken ≠ "") :
    (∀ (users : List User) (now : Nat) (payload : JwtPayload),
      JwtStrategy.validate
          (logout st accessToken refreshToken accessExpiry refreshExpiry).registry
          users now (some accessToken) payload = .error .tokenRevoked)
    ∧ isTokenBlacklisted
        (logout st accessToken refreshToken accessExpiry refreshExpiry).registry
        accessToken = true
    ∧ isTokenBlacklisted
        (logout st accessToken refreshToken accessExpiry refreshExpiry).registry
        refreshToken = true
    ∧ (isTokenBlacklisted st.registry accessToken = false →
        (⟨accessToken, accessExpiry⟩ : RevocationEntry)
          ∈ (logout st accessToken refreshToken accessExpiry refreshExpiry).registry)
    ∧ (isTokenBlacklisted st.registry refreshToken = false →
        refreshToken ≠ accessToken →
        (⟨refreshToken, refreshExpiry⟩ : RevocationEntry)
          ∈ (logout st accessToken refreshToken accessExpiry refreshExpiry).registry)
    ∧ logout (logout st accessToken refreshToken accessExpiry refreshExpiry)
        accessToken refreshToken accessExpiry refreshExpiry
      = logout st accessToken refreshToken accessExpiry refreshExpiry := by
  have haccB : isTokenBlacklisted
      (revokeToken (revokeToken st.registry accessToken accessExpiry)
        refreshToken refreshExpiry) accessToken = true :=
    isTokenBlacklisted_revokeToken_mono _ _ _ _
      (isTokenBlacklisted_revokeToken_self _ _ _)
  have hrefB : isTokenBlacklisted
      (revokeToken (revokeToken st.registry accessToken accessExpiry)
        refreshToken refreshExpiry) refreshToken = true :=
    isTokenBlacklisted_revokeToken_self _ _ _
  have hacc : isTokenBlacklisted
      (logout st accessToken refreshToken accessExpiry refreshExpiry).registry
      accessToken = true := haccB
  have href : isTokenBlacklisted
      (logout st accessToken refreshToken accessExpiry refreshExpiry).registry
      refreshToken = true := hrefB
  refine ⟨?_, hacc, href, ?_, ?_, ?_⟩
  · intro users now payload
    unfold JwtStrategy.validate
    simp [tokenTruthy, hne, hacc]
  · intro h
    simp only [logout]
    exact mem_revokeToken_of_mem _ _ _ _ (mem_revokeToken_self _ _ _ h)
  · intro h hne2
    simp only [logout]
    exact mem_revokeToken_self _ _ _
      (isTokenBlacklisted_revokeToken_other _ _ _ _ h hne2)
  · simp only [logout]
    rw [revokeToken_of_present _ _ _ haccB, revokeToken_of_present _ _ _ hrefB]

theorem findByEmail_saveUser (users : List User) (email : String)
    (u u' : User) (hfind : findByEmail users email = some u)
    (hid : u'.id = u.id) (hemail : u'.email = email) :
    findByEmail (saveUser users u') email = some u' := by
  unfold findByEmail saveUser at *
  induction users with
  | nil => simp at hfind
  | cons v t ih =>
    by_cases hv : v.email = email
    · rw [List.find?_cons_of_pos _ (by simpa using hv)] at hfind
      have hvu : v = u := by injection hfind
      rw [List.map_cons, if_pos (by rw [hid, ← hvu])]
      exact List.find?_cons_of_pos _ (by simpa using hemail)
    · rw [List.find?_cons_of_neg _ (by simpa using hv)] at hfind
      rw [List.map_cons]
      by_cases hvid : v.id = u'.id
      · rw [if_pos hvid]
        exact List.find?_cons_of_pos _ (by simpa using hemail)
      · rw [if_neg hvid, List.find?_cons_of_neg _ (by simpa using hv)]
        exact ih hfind

/-- C7: a correct-password login with 2FA enabled returns only the
challenge token — it neither returns nor records any access or refresh
token — while with 2FA disabled it resets the failed-attempt counter to
zero and returns a full token pair. -/
theorem login_twofactor_branching
    (verify : String → String → Bool) (cfg : AuthConfig) (st : AuthState)
    (now : Nat)
    (email password tempToken familyId newAccess newRefresh : String)
    (u : User)
    (hfind : findByEmail st.users email = some u)
    (hnolock : u.lockoutUntil = none)
    (hpw : verify password u.passwordHash = true) :
    (u.twoFactorEnabled = true →
      (login verify cfg st now email password tempToken familyId newAccess
          newRefresh).1 = .requires2FA tempToken
      ∧ (login verify cfg st now email password tempToken familyId newAccess
          newRefresh).2.refreshTokens = st.refreshTokens
      ∧ (login verify cfg st now email password tempToken familyId newAccess
          newRefresh).2.familyTokens = st.familyTokens)
    ∧ (u.twoFactorEnabled = false →
      (login verify cfg st now email password tempToken familyId newAccess
          newRefresh).1 = .tokenPair newAccess newRefresh
      ∧ findByEmail (login verify cfg st now email password tempToken familyId
          newAccess newRefresh).2.users email
        = some { u with failedLoginAttempts := 0 }) := by
  have hfind' : st.users.find? (fun v => v.email = email) = some u := hfind
  have huemail : u.email = email := by
    simpa using List.find?_some hfind'
  constructor
  · intro h2fa
    refine ⟨?_, ?_, ?_⟩ <;>
      simp [login, hfind, hnolock, hpw, h2fa]
  · intro h2fa
    constructor
    · simp [login, hfind, hnolock, hpw, h2fa]
    · have hsave : findByEmail
          (saveUser st.users { u with failedLoginAttempts := 0 }) email
          = some { u with failedLoginAttempts := 0 } :=
        findByEmail_saveUser st.users email u _ hfind rfl huemail
      simpa [login, hfind, hnolock, hpw, h2fa, mintPair] using hsave

/-- Witness for C7 at a concrete identity with 2FA disabled. -/
theorem login_twofactor_branching_witness :
    (login (fun p h => p = h) ⟨900, 2000, 300, 5, 1000⟩
        ⟨[⟨"u1", "a@x.com", "pw", none, none, 0, false, true, none⟩],
          [], [], []⟩
        0 "a@x.com" "pw" "tmp" "f1" "acc" "ref").1
      = .tokenPair "acc" "ref" :=
  ((login_twofactor_branching (fun p h => p = h) ⟨900, 2000, 300, 5, 1000⟩
      ⟨[⟨"u1", "a@x.com", "pw", none, none, 0, false, true, none⟩],
        [], [], []⟩
      0 "a@x.com" "pw" "tmp" "f1" "acc" "ref"
      ⟨"u1", "a@x.com", "pw", none, none, 0, false, true, none⟩
      (by decide) rfl (by decide)).2 rfl).1

theorem loginRun_wrong_password
    (verify : String → String → Bool) (cfg : AuthConfig)
    (email password tempToken familyId newAccess newRefresh : String)
    (u : User)
    (hverify : verify password u.passwordHash = false)
    (hlock : u.lockoutUntil = none) :
    ∀ (ts : List Nat) (st : AuthState) (k : Nat),
      findByEmail st.users email
        = some { u with failedLoginAttempts := k } →
      k + ts.length < cfg.lockoutThreshold →
      findByEmail
          (loginRun verify cfg email password tempToken familyId newAccess
            newRefresh st ts).users email
        = some { u with failedLoginAttempts := k + ts.length } := by
  intro ts
  induction ts with
  | nil =>
    intro st k hf _
    simpa [loginRun] using hf
  | cons t ts ih =>
    intro st k hf hk
    simp only [List.length_cons] at hk
    have huemail : u.email = email := by
      have hf' : st.users.find? (fun v => v.email = email)
          = some { u with failedLoginAttempts := k } := hf
      simpa using List.find?_some hf'
    have hth : ¬ (cfg.lockoutThreshold ≤ k + 1) := by omega
    have hstep : findByEmail
        ((login verify cfg st t email password tempToken familyId newAccess
          newRefresh).2).users email
        = some { u with failedLoginAttempts := k + 1 } := by
      have hsave := findByEmail_saveUser st.users email
        { u with failedLoginAttempts := k }
        { u with failedLoginAttempts := k + 1 } hf rfl huemail
      simpa [login, hf, hlock, hverify, hth] using hsave
    have hrest := ih _ (k + 1) hstep (by omega)
    have harith : (k + 1) + ts.length = k + (ts.length + 1) := by omega
    rw [harith] at hrest
    simpa [loginRun] using hrest

/-- C4: starting from a clean identity, `lockoutThreshold` consecutive
failed attempts set `lockoutUntil` to the last attempt's time plus the
lockout window; while that instant is in the future even a
correct-password attempt is rejected with `AccountLocked` and the state
is untouched; once it has passed, the counter is reset on the next
login — a correct password yields a token pair with the counter at zero,
and even a wrong password records one failure rather than
threshold-plus-one. -/
theorem lockout_after_threshold
    (verify : String → String → Bool) (cfg : AuthConfig) (st : AuthState)
    (u : User)
    (email wrong correct tempToken familyId newAccess newRefresh : String)
    (ts : List Nat) (tN tLater : Nat)
    (hfind : findByEmail st.users email = some u)
    (hfail0 : u.failedLoginAttempts = 0)
    (hlock0 : u.lockoutUntil = none)
    (hwrong : verify wrong u.passwordHash = false)
    (hcorrect : verify correct u.passwordHash = true)
    (h2fa : u.twoFactorEnabled = false)
    (hlen : ts.length + 1 = cfg.lockoutThreshold) :
    findByEmail
        ((login verify cfg
          (loginRun verify cfg email wrong tempToken familyId newAccess
            newRefresh st ts)
          tN email wrong tempToken familyId newAccess newRefresh).2).users
        email
      = some { u with
          failedLoginAttempts := cfg.lockoutThreshold,
          lockoutUntil := some (tN + cfg.lockoutWindow) }
    ∧ (tLater < tN + cfg.lockoutWindow →
        login verify cfg
          ((login verify cfg
            (loginRun verify cfg email wrong tempToken familyId newAccess
              newRefresh st ts)
            tN email wrong tempToken familyId newAccess newRefresh).2)
          tLater email correct tempToken familyId newAccess newRefresh
        = (.accountLocked,
          (login verify cfg
            (loginRun verify cfg email wrong tempToken familyId newAccess
              newRefresh st ts)
            tN email wrong tempToken familyId newAccess newRefresh).2))
    ∧ (tN + cfg.lockoutWindow ≤ tLater →
        (login verify cfg
          ((login verify cfg
            (loginRun verify cfg email wrong tempToken familyId newAccess
              newRefresh st ts)
            tN email wrong tempToken familyId newAccess newRefresh).2)
          tLater email correct tempToken familyId newAccess newRefresh).1
        = .tokenPair newAccess newRefresh
        ∧ findByEmail
            ((login verify cfg
              ((login verify cfg
                (loginRun verify cfg email wrong tempToken familyId newAccess
                  newRefresh st ts)
                tN email wrong tempToken familyId newAccess newRefresh).2)
              tLater email correct tempToken familyId newAccess newRefresh).2).users
            email
          = some { u with failedLoginAttempts := 0, lockoutUntil := none })
    ∧ (tN + cfg.lockoutWindow ≤ tLater →
        (login verify cfg
          ((login verify cfg
            (loginRun verify cfg email wrong tempToken familyId newAccess
              newRefresh st ts)
            tN email wrong tempToken familyId newAccess newRefresh).2)
          tLater email wrong tempToken familyId newAccess newRefresh).1
        = .invalidCredentials
        ∧ (findByEmail
            ((login verify cfg
              ((login verify cfg
                (loginRun verify cfg email wrong tempToken familyId newAccess
                  newRefresh st ts)
                tN email wrong tempToken familyId newAccess newRefresh).2)
              tLater email wrong tempToken familyId newAccess newRefresh).2).users
            email).map User.failedLoginAttempts
          = some 1) := by
  have hu0 : ({ u with failedLoginAttempts := 0 } : User) = u := by
    cases u
    simp_all
  have hN : 1 ≤ cfg.lockoutThreshold := by omega
  have hrun := loginRun_wrong_password verify cfg email wrong tempToken
    familyId newAccess newRefresh u hwrong hlock0 ts st 0
    (by rw [hu0]; exact hfind) (by omega)
  have hrun' : findByEmail
      (loginRun verify cfg email wrong tempToken familyId newAccess
        newRefresh st ts).users email
      = some { u with failedLoginAttempts := ts.length } := by
    simpa using hrun
  have huemail : u.email = email := by
    have hf' : st.users.find? (fun v => v.email = email) = some u := hfind
    simpa using List.find?_some hf'
  have hthN : cfg.lockoutThreshold ≤ ts.length + 1 := by omega
  -- the Nth failure sets the lockout
  have hlocked : findByEmail
      ((login verify cfg
        (loginRun verify cfg email wrong tempToken familyId newAccess
          newRefresh st ts)
        tN email wrong tempToken familyId newAccess newRefresh).2).users
      email
      = some { u with
          failedLoginAttempts := cfg.lockoutThreshold,
          lockoutUntil := some (tN + cfg.lockoutWindow) } := by
    have hsave := findByEmail_saveUser
      (loginRun verify cfg email wrong tempToken familyId newAccess
        newRefresh st ts).users email
      { u with failedLoginAttempts := ts.length }
      { u with
          failedLoginAttempts := cfg.lockoutThreshold,
          lockoutUntil := some (tN + cfg.lockoutWindow) }
      hrun' rfl huemail
    have hlen' : ts.length + 1 = cfg.lockoutThreshold := hlen
    simpa [login, hrun', hlock0, hwrong, hthN, hlen'] using hsave
  set stF := (login verify cfg
      (loginRun verify cfg email wrong tempToken familyId newAccess
        newRefresh st ts)
      tN email wrong tempToken familyId newAccess newRefresh).2 with hstF
  refine ⟨hlocked, ?_, ?_, ?_⟩
  · intro hlt
    simp [login, hlocked, hlt]
  · intro hge
    have hnlt : ¬ (tLater < tN + cfg.lockoutWindow) := by omega
    have hsave := findByEmail_saveUser stF.users email
      { u with
          failedLoginAttempts := cfg.lockoutThreshold,
          lockoutUntil := some (tN + cfg.lockoutWindow) }
      { u with failedLoginAttempts := 0, lockoutUntil := none }
      hlocked rfl huemail
    constructor
    · simp [login, hlocked, hnlt, hcorrect, h2fa]
    · simpa [login, hlocked, hnlt, hcorrect, h2fa, mintPair] using hsave
  · intro hge
    have hnlt : ¬ (tLater < tN + cfg.lockoutWindow) := by omega
    constructor
    · simp [login, hlocked, hnlt, hwrong]
    · by_cases hth1 : cfg.lockoutThreshold ≤ 0 + 1
      · have hsave := findByEmail_saveUser stF.users email
          { u with
              failedLoginAttempts := cfg.lockoutThreshold,
              lockoutUntil := some (tN + cfg.lockoutWindow) }
          { u with
              failedLoginAttempts := 1,
              lockoutUntil := some (tLater + cfg.lockoutWindow) }
          hlocked rfl huemail
        simp [login, hlocked, hnlt, hwrong, hth1, hsave]
      · have hsave := findByEmail_saveUser stF.users email
          { u with
              failedLoginAttempts := cfg.lockoutThreshold,
              lockoutUntil := some (tN + cfg.lockoutWindow) }
          { u with failedLoginAttempts := 1, lockoutUntil := none }
          hlocked rfl huemail
        simp [login, hlocked, hnlt, hwrong, hth1, hsave]

/-- Witness for C6 at a concrete state and token pair. -/
theorem logout_revokes_and_is_idempotent_witness :
    JwtStrategy.validate
        (logout ⟨[], [], [], []⟩ "acc" "ref" 15 30).registry
        [] 0 (some "acc") ⟨"u1", "a@x.com", "local", 0⟩
      = .error .tokenRevoked :=
  (logout_revokes_and_is_idempotent ⟨[], [], [], []⟩ "acc" "ref" 15 30
    (by decide)).1 [] 0 ⟨"u1", "a@x.com", "local", 0⟩

/-- Witness for C4: threshold 2, two wrong attempts lock the account
until ms 1010. -/
theorem lockout_after_threshold_witness :
    findByEmail
        ((login (fun p h => p = h) ⟨900, 2000, 300, 2, 1000⟩
          (loginRun (fun p h => p = h) ⟨900, 2000, 300, 2, 1000⟩
            "a@x.com" "xx" "tmp" "f1" "acc" "ref"
            ⟨[⟨"u1", "a@x.com", "pw", none, none, 0, false, true, none⟩],
              [], [], []⟩ [5])
          10 "a@x.com" "xx" "tmp" "f1" "acc" "ref").2).users "a@x.com"
      = some ⟨"u1", "a@x.com", "pw", none, some (10 + 1000), 2, false, true,
          none⟩ :=
  (lockout_after_threshold (fun p h => p = h) ⟨900, 2000, 300, 2, 1000⟩
      ⟨[⟨"u1", "a@x.com", "pw", none, none, 0, false, true, none⟩],
        [], [], []⟩
      ⟨"u1", "a@x.com", "pw", none, none, 0, false, true, none⟩
      "a@x.com" "xx" "pw" "tmp" "f1" "acc" "ref" [5] 10 100
      (by decide) rfl rfl (by decide) (by decide) rfl rfl).1

theorem find?_token_map (f : RefreshRecord → RefreshRecord)
    (hf : ∀ r, (f r).token = r.token) (l : List RefreshRecord) (t : String) :
    (l.map f).find? (fun r => r.token = t)
      = (l.find? (fun r => r.token = t)).map f := by
  induction l with
  | nil => rfl
  | cons v l ih =>
    by_cases hv : v.token = t
    · rw [List.map_cons, List.find?_cons_of_pos _ (by simpa [hf] using hv),
        List.find?_cons_of_pos _ (by simpa using hv)]
      rfl
    · rw [List.map_cons, List.find?_cons_of_neg _ (by simpa [hf] using hv),
        List.find?_cons_of_neg _ (by simpa using hv)]
      exact ih

theorem rotatedInList_append (l : List RefreshRecord)
    (rt : String) (x : RefreshRecord) (hx : x.token ≠ rt)
    (h : rotatedInList l rt = true) :
    rotatedInList (l ++ [x]) rt = true := by
  unfold rotatedInList at *
  rw [List.find?_append]
  cases hf : l.find? (fun r => r.token = rt) with
  | some v =>
    rw [hf] at h
    exact h
  | none =>
    rw [hf] at h
    rw [List.find?_cons_of_neg _ (by simpa using hx)]
    rfl

theorem rotatedInList_map (l : List RefreshRecord)
    (rt : String) (f : RefreshRecord → RefreshRecord)
    (hft : ∀ r, (f r).token = r.token)
    (hfr : ∀ r, r.rotated = true → (f r).rotated = true)
    (h : rotatedInList l rt = true) :
    rotatedInList (l.map f) rt = true := by
  unfold rotatedInList at *
  rw [find?_token_map f hft]
  cases hf : l.find? (fun r => r.token = rt) with
  | some v =>
    rw [hf] at h
    simpa using hfr v h
  | none =>
    rfl

theorem login_refreshTokens_shape (verify : String → String → Bool)
    (cfg : AuthConfig) (st : AuthState) (now : Nat)
    (email password tempToken familyId newAccess newRefresh : String) :
    (login verify cfg st now email password tempToken familyId newAccess
        newRefresh).2.refreshTokens = st.refreshTokens
    ∨ (login verify cfg st now email password tempToken familyId newAccess
        newRefresh).2.refreshTokens
      = st.refreshTokens
        ++ [⟨newRefresh, familyId, false, false, now + cfg.refreshTtl⟩] := by
  unfold login
  cases findByEmail st.users email with
  | none => left; rfl
  | some user0 =>
    simp only [mintPair]
    repeat' split
    all_goals first | (left; rfl) | (right; rfl)

theorem refresh_refreshTokens_shape (cfg : AuthConfig) (st : AuthState)
    (now : Nat) (refreshToken newAccess newRefresh : String) :
    (refreshAccessToken cfg st now refreshToken newAccess
        newRefresh).2.refreshTokens = st.refreshTokens
    ∨ (∃ fid, (refreshAccessToken cfg st now refreshToken newAccess
        newRefresh).2.refreshTokens
      = st.refreshTokens.map (fun r => if r.familyId = fid then
          { r with revoked := true } else r))
    ∨ (refreshAccessToken cfg st now refreshToken newAccess
        newRefresh).2.refreshTokens
      = (st.refreshTokens.map (fun r => if r.token = refreshToken then
          { r with rotated := true } else r))
        ++ [⟨newRefresh, (st.refreshTokens.find?
              (fun r => r.token = refreshToken)).elim "" RefreshRecord.familyId,
            false, false, now + cfg.refreshTtl⟩] := by
  unfold refreshAccessToken
  cases hf : st.refreshTokens.find? (fun r => r.token = refreshToken) with
  | none => left; rfl
  | some record =>
    simp only [mintPair, revokeFamily]
    split
    · left; rfl
    · split
      · left; rfl
      · split
        · right; left; exact ⟨record.familyId, rfl⟩
        · right; right; rfl

theorem rotatedOrGone_applyOp (verify : String → String → Bool)
    (cfg : AuthConfig) (st : AuthState) (rt : String) (op : AuthOp)
    (hrot : rotatedOrGone st rt = true)
    (hmint : mintsRefreshToken rt op = false) :
    rotatedOrGone (applyOp verify cfg st op) rt = true := by
  unfold rotatedOrGone at *
  cases op with
  | logoutOp acc ref ae re => exact hrot
  | loginOp now e p tt fam acc ref =>
    simp only [mintsRefreshToken, decide_eq_false_iff_not] at hmint
    rcases login_refreshTokens_shape verify cfg st now e p tt fam acc ref
      with hsame | happ
    · simp only [applyOp, hsame]
      exact hrot
    · simp only [applyOp, happ]
      exact rotatedInList_append _ _ _ hmint hrot
  | refreshOp now t acc ref =>
    simp only [mintsRefreshToken, decide_eq_false_iff_not] at hmint
    rcases refresh_refreshTokens_shape cfg st now t acc ref
      with hsame | ⟨fid, hmap⟩ | happ
    · simp only [applyOp, hsame]
      exact hrot
    · simp only [applyOp, hmap]
      refine rotatedInList_map _ _ _ ?_ ?_ hrot
      · intro r; split <;> rfl
      · intro r hr; split
        · exact hr
        · exact hr
    · simp only [applyOp, happ]
      refine rotatedInList_append _ _ _ hmint ?_
      refine rotatedInList_map _ _ _ ?_ ?_ hrot
      · intro r; split <;> rfl
      · intro r hr; split
        · rfl
        · exact hr

theorem rotatedOrGone_runOps (verify : String → String → Bool)
    (cfg : AuthConfig) (rt : String) :
    ∀ (ops : List AuthOp) (st : AuthState),
      rotatedOrGone st rt = true →
      (∀ op ∈ ops, mintsRefreshToken rt op = false) →
      rotatedOrGone (runOps verify cfg st ops) rt = true := by
  intro ops
  induction ops with
  | nil => intro st h _; simpa [runOps] using h
  | cons op ops ih =>
    intro st h hmint
    have hstep := rotatedOrGone_applyOp verify cfg st rt op h
      (hmint op (List.mem_cons_self op ops))
    have := ih _ hstep (fun o ho => hmint o (List.mem_cons_of_mem op ho))
    simpa [runOps] using this

theorem refresh_never_succeeds_once_rotated (cfg : AuthConfig)
    (st : AuthState) (rt : String) (hrot : rotatedOrGone st rt = true)
    (now : Nat) (newAccess newRefresh : String) :
    (refreshAccessToken cfg st now rt newAccess newRefresh).1.isSuccess
      = false := by
  unfold rotatedOrGone rotatedInList at hrot
  unfold refreshAccessToken
  cases hf : st.refreshTokens.find? (fun r => r.token = rt) with
  | none => rfl
  | some record =>
    rw [hf] at hrot
    have hr : record.rotated = true := hrot
    by_cases hrev : record.revoked = true
    · simp [hrev, RefreshResult.isSuccess]
    · by_cases hex : record.expiry ≤ now
      · simp [hrev, hex, RefreshResult.isSuccess]
      · simp [hrev, hex, hr, RefreshResult.isSuccess]

theorem isTokenBlacklisted_familyFold_mono (fid : String) :
    ∀ (l : List FamilyToken) (bl : List RevocationEntry) (x : String),
      isTokenBlacklisted bl x = true →
      isTokenBlacklisted
        (l.foldl (fun bl2 ft => if ft.familyId = fid then
          revokeToken bl2 ft.tokenId ft.naturalExpiry else bl2) bl) x
        = true := by
  intro l
  induction l with
  | nil => intro bl x h; simpa using h
  | cons y l ih =>
    intro bl x h
    simp only [List.foldl_cons]
    apply ih
    by_cases hy : y.familyId = fid
    · rw [if_pos hy]
      exact isTokenBlacklisted_revokeToken_mono _ _ _ _ h
    · rw [if_neg hy]
      exact h

theorem isTokenBlacklisted_familyFold_mem (fid : String) :
    ∀ (l : List FamilyToken) (bl : List RevocationEntry) (ft : FamilyToken),
      ft ∈ l → ft.familyId = fid →
      isTokenBlacklisted
        (l.foldl (fun bl2 ft2 => if ft2.familyId = fid then
          revokeToken bl2 ft2.tokenId ft2.naturalExpiry else bl2) bl)
        ft.tokenId = true := by
  intro l
  induction l with
  | nil => intro bl ft hmem _; cases hmem
  | cons y l ih =>
    intro bl ft hmem hfid
    simp only [List.foldl_cons]
    rcases List.mem_cons.mp hmem with h | h
    · subst h
      apply isTokenBlacklisted_familyFold_mono
      rw [if_pos hfid]
      exact isTokenBlacklisted_revokeToken_self _ _ _
    · exact ih _ _ h hfid

/-- C5: rotation is one-shot.  A live, un-rotated refresh token rotates
successfully and its record is marked rotated; a second use of a token
whose record is rotated (and not otherwise dead) fails with
`TokenReplayDetected` and leaves every token ledgered for the family in
the Revocation Registry, where `validate` rejects it with
`TokenRevoked`; and once the record is rotated, no operation sequence
that does not re-mint the same token string can make a refresh call
with it succeed again. -/
theorem refresh_rotation_replay
    (verify : String → String → Bool) (cfg : AuthConfig) (st : AuthState)
    (now : Nat) (rt newAccess newRefresh : String) (r0 : RefreshRecord)
    (hfind : st.refreshTokens.find? (fun r => r.token = rt) = some r0)
    (hnrev : r0.revoked = false) (hnrot : r0.rotated = false)
    (hexp : now < r0.expiry) :
    ((refreshAccessToken cfg st now rt newAccess newRefresh).1
        = .rotated newAccess newRefresh)
    ∧ (refreshAccessToken cfg st now rt newAccess
        newRefresh).2.refreshTokens.find? (fun r => r.token = rt)
      = some { r0 with rotated := true }
    ∧ rotatedOrGone
        (refreshAccessToken cfg st now rt newAccess newRefresh).2 rt = true
    ∧ (∀ (st2 : AuthState) (r2 : RefreshRecord) (now2 : Nat)
        (a2 b2 : String),
        st2.refreshTokens.find? (fun r => r.token = rt) = some r2 →
        r2.rotated = true → r2.revoked = false → now2 < r2.expiry →
        (refreshAccessToken cfg st2 now2 rt a2 b2).1 = .tokenReplayDetected
        ∧ ∀ ft ∈ (refreshAccessToken cfg st2 now2 rt a2 b2).2.familyTokens,
            ft.familyId = r2.familyId →
            isTokenBlacklisted
              (refreshAccessToken cfg st2 now2 rt a2 b2).2.registry
              ft.tokenId = true
            ∧ (ft.tokenId ≠ "" → ∀ (users : List User) (now3 : Nat)
                (payload : JwtPayload),
                JwtStrategy.validate
                  (refreshAccessToken cfg st2 now2 rt a2 b2).2.registry
                  users now3 (some ft.tokenId) payload
                  = .error .tokenRevoked))
    ∧ (∀ (st3 : AuthState) (ops : List AuthOp) (now4 : Nat)
        (a4 b4 : String),
        rotatedOrGone st3 rt = true →
        (∀ op ∈ ops, mintsRefreshToken rt op = false) →
        (refreshAccessToken cfg (runOps verify cfg st3 ops) now4 rt a4
          b4).1.isSuccess = false) := by
  have htok : r0.token = rt := by simpa using List.find?_some hfind
  have hnex : ¬ (r0.expiry ≤ now) := by omega
  have hshape : (refreshAccessToken cfg st now rt newAccess
      newRefresh).2.refreshTokens
      = (st.refreshTokens.map (fun r => if r.token = rt then
          { r with rotated := true } else r))
        ++ [⟨newRefresh, r0.familyId, false, false, now + cfg.refreshTtl⟩] := by
    simp [refreshAccessToken, hfind, hnrev, hnex, hnrot, mintPair]
  have hfind2 : (refreshAccessToken cfg st now rt newAccess
      newRefresh).2.refreshTokens.find? (fun r => r.token = rt)
      = some { r0 with rotated := true } := by
    rw [hshape, List.find?_append,
      find?_token_map
        (fun r => if r.token = rt then { r with rotated := true } else r)
        (fun r => by dsimp only; split <;> rfl) st.refreshTokens rt,
      hfind]
    simp [htok]
  refine ⟨?_, hfind2, ?_, ?_, ?_⟩
  · simp [refreshAccessToken, hfind, hnrev, hnex, hnrot]
  · unfold rotatedOrGone rotatedInList
    rw [hfind2]
  · intro st2 r2 now2 a2 b2 hf2 hrot2 hrev2 hexp2
    have hnex2 : ¬ (r2.expiry ≤ now2) := by omega
    have hres : refreshAccessToken cfg st2 now2 rt a2 b2
        = (.tokenReplayDetected, revokeFamily st2 r2.familyId) := by
      simp [refreshAccessToken, hf2, hrev2, hnex2, hrot2]
    constructor
    · rw [hres]
    · intro ft hmem hfid
      rw [hres] at hmem
      have hbl : isTokenBlacklisted
          (refreshAccessToken cfg st2 now2 rt a2 b2).2.registry
          ft.tokenId = true := by
        rw [hres]
        exact isTokenBlacklisted_familyFold_mem r2.familyId
          st2.familyTokens st2.registry ft hmem hfid
      refine ⟨hbl, ?_⟩
      intro hne users now3 payload
      unfold JwtStrategy.validate
      simp [tokenTruthy, hne, hbl]
  · intro st3 ops now4 a4 b4 hrot3 hmint
    exact refresh_never_succeeds_once_rotated cfg _ rt
      (rotatedOrGone_runOps verify cfg rt ops st3 hrot3 hmint) now4 a4 b4

/-- Witness for C5: a concrete refresh token rotates once and its second
use is detected as a replay. -/
theorem refresh_rotation_replay_witness :
    (refreshAccessToken ⟨900, 2000, 300, 5, 1000⟩
        ⟨[], [], [⟨"r1", "f1", false, false, 100⟩],
          [⟨"a1", "f1", 50⟩, ⟨"r1", "f1", 100⟩]⟩
        0 "r1" "a2" "r2").1 = .rotated "a2" "r2"
    ∧ (refreshAccessToken ⟨900, 2000, 300, 5, 1000⟩
        (refreshAccessToken ⟨900, 2000, 300, 5, 1000⟩
          ⟨[], [], [⟨"r1", "f1", false, false, 100⟩],
            [⟨"a1", "f1", 50⟩, ⟨"r1", "f1", 100⟩]⟩
          0 "r1" "a2" "r2").2
        1 "r1" "a3" "r3").1 = .tokenReplayDetected :=
  ⟨(refresh_rotation_replay (fun p h => p = h) ⟨900, 2000, 300, 5, 1000⟩
      ⟨[], [], [⟨"r1", "f1", false, false, 100⟩],
        [⟨"a1", "f1", 50⟩, ⟨"r1", "f1", 100⟩]⟩
      0 "r1" "a2" "r2" ⟨"r1", "f1", false, false, 100⟩
      (by decide) rfl rfl (by decide)).1,
    ((refresh_rotation_replay (fun p h => p = h) ⟨900, 2000, 300, 5, 1000⟩
      ⟨[], [], [⟨"r1", "f1", false, false, 100⟩],
        [⟨"a1", "f1", 50⟩, ⟨"r1", "f1", 100⟩]⟩
      0 "r1" "a2" "r2" ⟨"r1", "f1", false, false, 100⟩
      (by decide) rfl rfl (by decide)).2.2.2.1
      (refreshAccessToken ⟨900, 2000, 300, 5, 1000⟩
        ⟨[], [], [⟨"r1", "f1", false, false, 100⟩],
          [⟨"a1", "f1", 50⟩, ⟨"r1", "f1", 100⟩]⟩
        0 "r1" "a2" "r2").2
      ⟨"r1", "f1", true, false, 100⟩ 1 "a3" "r3"
      (refresh_rotation_replay (fun p h => p = h) ⟨900, 2000, 300, 5, 1000⟩
        ⟨[], [], [⟨"r1", "f1", false, false, 100⟩],
          [⟨"a1", "f1", 50⟩, ⟨"r1", "f1", 100⟩]⟩
        0 "r1" "a2" "r2" ⟨"r1", "f1", false, false, 100⟩
        (by decide) rfl rfl (by decide)).2.1
      rfl rfl (by decide)).1⟩

theorem validateOAuthLogin_establishes_key (cfg : AuthConfig)
    (st : AuthState) (now : Nat) (profile : OAuthProfile)
    (newUserId familyId newAccess newRefresh : String) :
    ((validateOAuthLogin cfg st now profile newUserId familyId newAccess
        newRefresh).2.users.find?
      (fun u => u.oauth = some (profile.provider, profile.subject))).isSome
      = true := by
  cases h1 : st.users.find?
      (fun u => u.oauth = some (profile.provider, profile.subject)) with
  | some u =>
    simp only [validateOAuthLogin, h1, mintPair]
    rfl
  | none =>
    cases h2 : st.users.find?
        (fun u => u.email = profile.email && u.emailVerified) with
    | some u =>
      have humem : u ∈ st.users := List.mem_of_find?_eq_some h2
      simp only [validateOAuthLogin, h1, h2, mintPair]
      apply List.find?_isSome.mpr
      refine ⟨{ u with oauth := some (profile.provider, profile.subject) },
        ?_, by simp⟩
      unfold saveUser
      exact List.mem_map.mpr ⟨u, humem, by simp⟩
    | none =>
      simp only [validateOAuthLogin, h1, h2, mintPair]
      apply List.find?_isSome.mpr
      exact ⟨_, List.mem_append_right _ (List.mem_singleton.mpr rfl), by simp⟩

theorem validateOAuthLogin_found_users_eq (cfg : AuthConfig)
    (st : AuthState) (now : Nat) (profile : OAuthProfile)
    (newUserId familyId newAccess newRefresh : String) (u : User)
    (h : st.users.find?
      (fun v => v.oauth = some (profile.provider, profile.subject))
      = some u) :
    (validateOAuthLogin cfg st now profile newUserId familyId newAccess
      newRefresh).2.users = st.users := by
  simp [validateOAuthLogin, h, mintPair]

/-- C10: the completed Google OAuth flow invokes `validateOAuthLogin`
twice with the same raw profile (once in the passport strategy, once in
the redirect controller).  The first invocation establishes an identity
findable by `(provider, subject)`; the second finds and reuses it,
adding no identity at all; and a single invocation adds at most one
identity — so the double invocation creates at most one identity per
profile and never a duplicate. -/
theorem oauth_double_invocation_idempotent
    (cfg : AuthConfig) (st : AuthState) (now : Nat) (profile : OAuthProfile)
    (id1 fam1 acc1 ref1 id2 fam2 acc2 ref2 : String) :
    (((validateOAuthLogin cfg st now profile id1 fam1 acc1
        ref1).2.users.find?
      (fun u => u.oauth = some (profile.provider, profile.subject))).isSome
      = true)
    ∧ (googleLoginFlow cfg st now profile id1 fam1 acc1 ref1 id2 fam2 acc2
        ref2).2.users
      = (validateOAuthLogin cfg st now profile id1 fam1 acc1 ref1).2.users
    ∧ (validateOAuthLogin cfg st now profile id1 fam1 acc1
        ref1).2.users.length ≤ st.users.length + 1 := by
  refine ⟨validateOAuthLogin_establishes_key cfg st now profile id1 fam1
    acc1 ref1, ?_, ?_⟩
  · have hsome := validateOAuthLogin_establishes_key cfg st now profile
      id1 fam1 acc1 ref1
    obtain ⟨u, hu⟩ := Option.isSome_iff_exists.mp hsome
    exact validateOAuthLogin_found_users_eq cfg _ now profile id2 fam2
      acc2 ref2 u hu
  · cases h1 : st.users.find?
        (fun u => u.oauth = some (profile.provider, profile.subject)) with
    | some u => simp [validateOAuthLogin, h1, mintPair]
    | none =>
      cases h2 : st.users.find?
          (fun u => u.email = profile.email && u.emailVerified) with
      | some u => simp [validateOAuthLogin, h1, h2, mintPair, saveUser]
      | none => simp [validateOAuthLogin, h1, h2, mintPair]

-- engine theorems follow

end Auth

namespace Projects

/-- C8: cross-entity synchronization failures in the CRUD layer are
non-fatal — `create` returns the saved project even when team
provisioning throws, and `update` / `addMember` / `removeMember` succeed
when team-member synchronization throws — while the service's own errors
(user not found, project not found, not the creator) are surfaced as
typed rejections. -/
theorem crud_sync_failures_nonfatal
    (w : World) (dto : CreateProjectDto) (udto : UpdateProjectDto)
    (userEmail newId id userId : String) (user : PUser) (project : Project) :
    (w.teamCreateFails = true →
      w.users.find? (fun u => u.email = userEmail) = some user →
      (ProjectsService.create w dto userEmail newId).1.isOk = true)
    ∧ (w.teamUpdateFails = true →
      w.users.find? (fun u => u.email = userEmail) = some user →
      w.projects.find? (fun p => p.id = id) = some project →
      project.createdBy = user.id →
      (ProjectsService.update w id udto userEmail).1.isOk = true)
    ∧ (w.teamUpdateFails = true →
      w.users.find? (fun u => u.email = userEmail) = some user →
      w.projects.find? (fun p => p.id = id) = some project →
      project.createdBy = user.id →
      (ProjectsService.addMember w id userId userEmail).1.isOk = true)
    ∧ (w.teamUpdateFails = true →
      w.users.find? (fun u => u.email = userEmail) = some user →
      w.projects.find? (fun p => p.id = id) = some project →
      project.createdBy = user.id →
      (ProjectsService.removeMember w id userId userEmail).1.isOk = true)
    ∧ (w.users.find? (fun u => u.email = userEmail) = none →
      (ProjectsService.create w dto userEmail newId).1 = .error .userNotFound)
    ∧ (w.users.find? (fun u => u.email = userEmail) = some user →
      w.projects.find? (fun p => p.id = id) = none →
      (ProjectsService.update w id udto userEmail).1 = .error .projectNotFound)
    ∧ (w.users.find? (fun u => u.email = userEmail) = some user →
      w.projects.find? (fun p => p.id = id) = some project →
      project.createdBy ≠ user.id →
      (ProjectsService.update w id udto userEmail).1 = .error .forbidden) := by
  refine ⟨?_, ?_, ?_, ?_, ?_, ?_, ?_⟩
  · intro hf hu
    by_cases hc : w.teamCreateFails = true <;>
      simp [ProjectsService.create, hu, hc, Except.isOk, Except.toBool]
  · intro _ hu hp hcb
    simp [ProjectsService.update, hu, hp, hcb, Except.isOk, Except.toBool]
  · intro _ hu hp hcb
    by_cases hm : project.members.any (fun m => m = userId) = true <;>
      simp [ProjectsService.addMember, hu, hp, hcb, hm, Except.isOk,
        Except.toBool]
  · intro _ hu hp hcb
    simp [ProjectsService.removeMember, hu, hp, hcb, Except.isOk,
      Except.toBool]
  · intro hu
    simp [ProjectsService.create, hu]
  · intro hu hp
    simp [ProjectsService.update, hu, hp]
  · intro hu hp hcb
    simp [ProjectsService.update, hu, hp, hcb]

/-- Witness for C8: a concrete world where team provisioning throws and
project creation still succeeds, and a concrete unknown creator email
surfacing `userNotFound`. -/
theorem crud_sync_failures_nonfatal_witness :
    ((ProjectsService.create
        ⟨[⟨"u1", "a@x.com"⟩], [], [], true, true, "t1"⟩
        ⟨"proj", "d", none, none, none, none, none⟩ "a@x.com" "p1").1.isOk
      = true)
    ∧ ((ProjectsService.create
        ⟨[⟨"u1", "a@x.com"⟩], [], [], true, true, "t1"⟩
        ⟨"proj", "d", none, none, none, none, none⟩ "b@x.com" "p1").1
      = .error .userNotFound) :=
  ⟨(crud_sync_failures_nonfatal
      ⟨[⟨"u1", "a@x.com"⟩], [], [], true, true, "t1"⟩
      ⟨"proj", "d", none, none, none, none, none⟩
      ⟨none, none, none, none, none, none, none⟩
      "a@x.com" "p1" "p1" "u2" ⟨"u1", "a@x.com"⟩
      ⟨"p1", "n", "d", "active", "u1", [], 0, none, none, none⟩).1
      rfl (by decide),
    (crud_sync_failures_nonfatal
      ⟨[⟨"u1", "a@x.com"⟩], [], [], true, true, "t1"⟩
      ⟨"proj", "d", none, none, none, none, none⟩
      ⟨none, none, none, none, none, none, none⟩
      "b@x.com" "p1" "p1" "u2" ⟨"u1", "a@x.com"⟩
      ⟨"p1", "n", "d", "active", "u1", [], 0, none, none, none⟩).2.2.2.2.1
      (by decide)⟩

end Projects
